import Mathlib

/-!
Verification of the PicoWiFiManager storage layer and connection orchestrator.

The C++ sources (src/StorageManager.{h,cpp}, src/PicoWiFiManager.{h,cpp}) are
embedded shallowly:

* Fixed-size `char` buffers are byte lists (`List Nat`, each entry `< 256`);
  a stored C string is the prefix of a buffer before the first zero byte.
* The persisted `StorageData` struct is serialized to its ARM EABI byte
  layout (4-byte alignment, little-endian integers).  Compiler padding
  bytes (offsets 5-7, 109-111, 113-115) are modelled as zero.
* `uint32_t` arithmetic (`millis()` deltas) is modelled on `Nat` with
  explicit reduction modulo `2^32`.
* EEPROM is the byte list held by the manager; `EEPROM.put`/`commit`
  overwrite its prefix, `EEPROM.get` reads fields at fixed offsets.
* Serial logging, the LED driver and the web portal internals have no
  effect on the verified state and are elided.
-/

set_option maxRecDepth 10000

namespace PicoWiFi

/-- 2^32, the modulus of `uint32_t` arithmetic. -/
def U32 : Nat := 4294967296

/-- Little-endian bytes of a `uint32_t` value. -/
def le32 (x : Nat) : List Nat :=
  [x % 256, x / 256 % 256, x / 65536 % 256, x / 16777216 % 256]

/-- Little-endian bytes of a `uint16_t` value. -/
def le16 (x : Nat) : List Nat := [x % 256, x / 256 % 256]

/-- The single byte a C++ `bool` occupies. -/
def boolByte (b : Bool) : Nat := if b then 1 else 0

/-- `strncpy(dst, src, n-1)` followed by `dst[n-1] = 0` on an `n`-byte
buffer: the source (a NUL-free byte string) truncated to `n-1` bytes and
zero-padded to length `n`. -/
def fixBuf (n : Nat) (src : List Nat) : List Nat :=
  src.take (n - 1) ++ List.replicate (n - min src.length (n - 1)) 0

/-- The C string stored in a buffer: bytes before the first NUL. -/
def cstr (buf : List Nat) : List Nat := buf.takeWhile (fun b => b != 0)

/-- `struct WiFiCredentials` (StorageManager.h): 32-byte ssid buffer,
64-byte password buffer, `valid` flag. -/
structure WiFiCredentials where
  ssid : List Nat
  password : List Nat
  valid : Bool
deriving DecidableEq, Repr

/-- `struct NetworkConfig` (StorageManager.h). -/
structure NetworkConfig where
  useStaticIP : Bool
  staticIP : Nat
  gateway : Nat
  subnet : Nat
  primaryDNS : Nat
  secondaryDNS : Nat
deriving DecidableEq, Repr

/-- `struct DeviceConfig` (StorageManager.h): 32-byte hostname buffer,
auto-reconnect flag, `uint8_t` attempt bound, `uint16_t` timeout. -/
structure DeviceConfig where
  hostname : List Nat
  autoReconnect : Bool
  maxReconnectAttempts : Nat
  connectTimeout : Nat
deriving DecidableEq, Repr

/-- `struct StorageData` (StorageManager.h): the persisted record. -/
structure StorageData where
  magic : Nat
  version : Nat
  checksum : Nat
  wifi : WiFiCredentials
  network : NetworkConfig
  device : DeviceConfig
  reserved : List Nat
deriving DecidableEq, Repr

def STORAGE_MAGIC : Nat := 0x50494345

def STORAGE_VERSION : Nat := 1

/-- `WiFiCredentials()` constructor / `clear()`: zeroed buffers, invalid. -/
def defaultWiFiCredentials : WiFiCredentials :=
  { ssid := List.replicate 32 0, password := List.replicate 64 0, valid := false }

/-- `NetworkConfig()` constructor. -/
def defaultNetworkConfig : NetworkConfig :=
  { useStaticIP := false, staticIP := 0, gateway := 0, subnet := 0
    primaryDNS := 0, secondaryDNS := 0 }

/-- The bytes of the string literal used for the default hostname. -/
def hostnameBytes : List Nat := [112, 105, 99, 111, 50, 119]

/-- `DeviceConfig()` constructor: hostname `strncpy`-ed from the literal,
auto-reconnect on, 3 attempts, 30-second timeout. -/
def defaultDeviceConfig : DeviceConfig :=
  { hostname := fixBuf 32 hostnameBytes, autoReconnect := true
    maxReconnectAttempts := 3, connectTimeout := 30 }

/-- `StorageData()` constructor: magic and version set, checksum zero,
substructures default, reserved zeroed. -/
def defaultStorageData : StorageData :=
  { magic := STORAGE_MAGIC, version := STORAGE_VERSION, checksum := 0
    wifi := defaultWiFiCredentials, network := defaultNetworkConfig
    device := defaultDeviceConfig, reserved := List.replicate 64 0 }

/-- Byte image of `WiFiCredentials` (offsets 0-96 within the struct,
alignment 1, no padding). -/
def serializeWiFi (w : WiFiCredentials) : List Nat :=
  w.ssid ++ w.password ++ [boolByte w.valid]

/-- Byte image of `NetworkConfig` (bool, 3 padding bytes, five `uint32_t`). -/
def serializeNetwork (n : NetworkConfig) : List Nat :=
  [boolByte n.useStaticIP, 0, 0, 0] ++ le32 n.staticIP ++ le32 n.gateway ++
    le32 n.subnet ++ le32 n.primaryDNS ++ le32 n.secondaryDNS

/-- Byte image of `DeviceConfig` (32-byte hostname, bool, `uint8_t`,
`uint16_t`; size 36, no padding). -/
def serializeDevice (d : DeviceConfig) : List Nat :=
  d.hostname ++ [boolByte d.autoReconnect, d.maxReconnectAttempts % 256] ++
    le16 d.connectTimeout

/-- Byte image of `StorageData` under the ARM EABI layout: magic at offset
0, version at 4 (3 padding bytes), checksum at 8, wifi at 12, network at
112 (3 padding bytes before), device at 136, reserved at 172; total size
236, matching `sizeof(StorageData)`. -/
def serialize (s : StorageData) : List Nat :=
  le32 s.magic ++ [s.version % 256, 0, 0, 0] ++ le32 s.checksum ++
    serializeWiFi s.wifi ++ [0, 0, 0] ++ serializeNetwork s.network ++
    serializeDevice s.device ++ s.reserved

/-- `sizeof(StorageData)`. -/
def STORAGE_SIZE : Nat := 236

/-- `StorageManager::calculateChecksum`: XOR of the bytes at offsets
`0 .. sizeof(StorageData) - sizeof(checksum) - 1` counted from the START
of the struct.  Because the `checksum` field sits at offset 8 (it is the
third field), this range contains the checksum field itself and stops 4
bytes short of the end of `reserved`. -/
def calculateChecksumBytes (bs : List Nat) : Nat :=
  ((bs.take (STORAGE_SIZE - 4)).foldl Nat.xor 0)

/-- `calculateChecksum` applied to a struct value via its byte image. -/
def calculateChecksum (s : StorageData) : Nat :=
  calculateChecksumBytes (serialize s)

/-- `StorageManager::isValidSSID`: non-null, `0 < strlen <= 31`, all
characters printable ASCII (32-126). -/
def isValidSSID (buf : List Nat) : Bool :=
  let s := cstr buf
  (!(s.length == 0)) && (s.length ≤ 31 : Bool) &&
    s.all (fun b => decide (32 ≤ b) && decide (b ≤ 126))

/-- `StorageManager::validateData`: magic, version, checksum, and - when
the wifi substructure is flagged valid - the ssid check. -/
def validateData (d : StorageData) : Bool :=
  if d.magic != STORAGE_MAGIC then false
  else if d.version != STORAGE_VERSION then false
  else if d.checksum != calculateChecksum d then false
  else if d.wifi.valid && !isValidSSID d.wifi.ssid then false
  else true

/-- Read one byte of the backing store (out-of-range reads give 0). -/
def rd8 (bs : List Nat) (off : Nat) : Nat := bs.getD off 0

/-- Read a little-endian `uint16_t`. -/
def rd16 (bs : List Nat) (off : Nat) : Nat :=
  rd8 bs off + 256 * rd8 bs (off + 1)

/-- Read a little-endian `uint32_t`. -/
def rd32 (bs : List Nat) (off : Nat) : Nat :=
  rd8 bs off + 256 * rd8 bs (off + 1) + 65536 * rd8 bs (off + 2) +
    16777216 * rd8 bs (off + 3)

/-- Read `n` consecutive bytes. -/
def rdBytes (bs : List Nat) (off n : Nat) : List Nat :=
  (List.range n).map (fun i => rd8 bs (off + i))

/-- Read a C++ `bool` byte (nonzero is true). -/
def rdBool (bs : List Nat) (off : Nat) : Bool := rd8 bs off != 0

/-- `EEPROM.get(0, _data)`: rebuild the struct from the bytes at the
layout offsets of `serialize`. -/
def deserialize (bs : List Nat) : StorageData :=
  { magic := rd32 bs 0, version := rd8 bs 4, checksum := rd32 bs 8
    wifi := { ssid := rdBytes bs 12 32, password := rdBytes bs 44 64
              valid := rdBool bs 108 }
    network := { useStaticIP := rdBool bs 112, staticIP := rd32 bs 116
                 gateway := rd32 bs 120, subnet := rd32 bs 124
                 primaryDNS := rd32 bs 128, secondaryDNS := rd32 bs 132 }
    device := { hostname := rdBytes bs 136 32, autoReconnect := rdBool bs 168
                maxReconnectAttempts := rd8 bs 169, connectTimeout := rd16 bs 170 }
    reserved := rdBytes bs 172 64 }

/-- `EEPROM.put(0, _data); EEPROM.commit()`: overwrite the leading bytes
of the backing store, keeping the tail. -/
def eepromPut (ee bs : List Nat) : List Nat := bs ++ ee.drop bs.length

/-- The `StorageManager` object: the `_initialized` flag, the in-memory
`_data` record, and the emulated-EEPROM byte range. -/
structure StorageManager where
  initialized : Bool
  data : StorageData
  eeprom : List Nat
deriving DecidableEq, Repr

/-- A freshly constructed `StorageManager` over a given flash content:
`_initialized = false`, `_data` default-constructed. -/
def mkStorageManager (ee : List Nat) : StorageManager :=
  { initialized := false, data := defaultStorageData, eeprom := ee }

namespace StorageManager

/-- `StorageManager::saveToEEPROM`: recompute the checksum (over the
record still carrying the previous checksum value), store it in the
record, write the record out, return true. -/
def saveToEEPROM (st : StorageManager) : StorageManager × Bool :=
  let c := calculateChecksum st.data
  let d := { st.data with checksum := c }
  ({ st with data := d, eeprom := eepromPut st.eeprom (serialize d) }, true)

/-- `StorageManager::loadFromEEPROM`: read the record and validate it. -/
def loadFromEEPROM (st : StorageManager) : StorageManager × Bool :=
  let d := deserialize st.eeprom
  ({ st with data := d }, validateData d)

/-- `StorageManager::initializeDefaults`: reset `_data` to the
default-constructed record. -/
def initializeDefaults (st : StorageManager) : StorageManager :=
  { st with data := defaultStorageData }

/-- `StorageManager::begin`: load, fall back to defaults (persisted) when
validation fails, set `_initialized`, return true. -/
def begin (st : StorageManager) : StorageManager × Bool :=
  let (st1, ok) := loadFromEEPROM st
  let st2 := if ok then st1 else (saveToEEPROM (initializeDefaults st1)).1
  ({ st2 with initialized := true }, true)

/-- `StorageManager::format`: defaults plus save, with no
`_initialized` guard. -/
def format (st : StorageManager) : StorageManager :=
  (saveToEEPROM (initializeDefaults st)).1

/-- `StorageManager::saveWiFiCredentials`: fails on a null ssid or an
uninitialized store; `strncpy`-truncates ssid (31 data bytes) and
password (63 data bytes); a null password zeroes the buffer; marks the
credentials valid and saves. -/
def saveWiFiCredentials (st : StorageManager) (ssid password : Option (List Nat)) :
    StorageManager × Bool :=
  match ssid with
  | none => (st, false)
  | some s =>
    if !st.initialized then (st, false)
    else
      let pw := match password with
        | some p => fixBuf 64 p
        | none => List.replicate 64 0
      let w : WiFiCredentials := { ssid := fixBuf 32 s, password := pw, valid := true }
      saveToEEPROM { st with data := { st.data with wifi := w } }

/-- `StorageManager::hasWiFiCredentials`. -/
def hasWiFiCredentials (st : StorageManager) : Bool :=
  st.initialized && st.data.wifi.valid

/-- `StorageManager::clearWiFiCredentials`: no `_initialized` guard. -/
def clearWiFiCredentials (st : StorageManager) : StorageManager :=
  (saveToEEPROM { st with data := { st.data with wifi := defaultWiFiCredentials } }).1

/-- `StorageManager::saveNetworkConfig`. -/
def saveNetworkConfig (st : StorageManager) (c : NetworkConfig) :
    StorageManager × Bool :=
  if !st.initialized then (st, false)
  else saveToEEPROM { st with data := { st.data with network := c } }

/-- `StorageManager::clearNetworkConfig`: no `_initialized` guard. -/
def clearNetworkConfig (st : StorageManager) : StorageManager :=
  (saveToEEPROM { st with data := { st.data with network := defaultNetworkConfig } }).1

/-- `StorageManager::saveDeviceConfig`. -/
def saveDeviceConfig (st : StorageManager) (c : DeviceConfig) :
    StorageManager × Bool :=
  if !st.initialized then (st, false)
  else saveToEEPROM { st with data := { st.data with device := c } }

/-- `StorageManager::clearDeviceConfig`: no `_initialized` guard. -/
def clearDeviceConfig (st : StorageManager) : StorageManager :=
  (saveToEEPROM { st with data := { st.data with device := defaultDeviceConfig } }).1

/-- `StorageManager::saveAll`. -/
def saveAll (st : StorageManager) (w : WiFiCredentials) (n : NetworkConfig)
    (d : DeviceConfig) : StorageManager × Bool :=
  if !st.initialized then (st, false)
  else saveToEEPROM { st with data := { st.data with wifi := w, network := n, device := d } }

/-- `StorageManager::clearAll`: no `_initialized` guard. -/
def clearAll (st : StorageManager) : StorageManager :=
  (saveToEEPROM { st with data :=
    { st.data with wifi := defaultWiFiCredentials
                   network := defaultNetworkConfig
                   device := defaultDeviceConfig } }).1

end StorageManager

/-! ### General lemmas about buffers -/

/-- Reading the C string out of a NUL-free byte string padded with zero
bytes gives back the byte string. -/
theorem cstr_append_zeros (l : List Nat) (m : Nat) (h : ∀ b ∈ l, b ≠ 0) :
    cstr (l ++ List.replicate m 0) = l := by
  induction l with
  | nil =>
    cases m with
    | zero => rfl
    | succ m => simp [cstr, List.replicate, List.takeWhile_cons]
  | cons a l ih =>
    have ha : a ≠ 0 := h a (List.mem_cons_self a l)
    have hl : ∀ b ∈ l, b ≠ 0 := fun b hb => h b (List.mem_cons_of_mem a hb)
    simp only [List.cons_append, cstr, List.takeWhile_cons]
    have : (a != 0) = true := by simpa using ha
    rw [this]
    simp only [if_pos rfl]
    exact congrArg (a :: ·) (ih hl)

/-- The C string stored by `strncpy(dst, src, n-1); dst[n-1] = 0` on an
`n`-byte buffer is the source truncated to `n-1` bytes, provided the
source is NUL-free. -/
theorem cstr_fixBuf (n : Nat) (src : List Nat) (h : ∀ b ∈ src, b ≠ 0) :
    cstr (fixBuf n src) = src.take (n - 1) := by
  unfold fixBuf
  exact cstr_append_zeros _ _ (fun b hb => h b (List.mem_of_mem_take hb))

/-! ### Claims about the storage layer -/

/-- A storage record the buggy validator accepts: the default record
with `reserved[0]` chosen so that the XOR of the bytes at offsets 0-231
is zero (the only way `validateData`'s checksum comparison can succeed,
because `calculateChecksum` XORs the checksum field into its own
expected value). -/
def C1validRecord : StorageData :=
  { defaultStorageData with reserved := 82 :: List.replicate 63 0 }

/-- The byte image of `C1validRecord` with the byte at offset 235
(`reserved[63]`, far outside the checksum field at offsets 8-11)
overwritten. -/
def C1corruptBytes : List Nat := (serialize C1validRecord).set 235 7

/-- Claim C1 fails on the code: `C1validRecord` validates, yet corrupting
the single byte at offset 235 - outside the checksum field - still
validates, the next `begin` keeps the corrupted record instead of
replacing it, and a `begin` that does reinitialize (blank flash) leaves
an in-memory default record that `validateData` rejects.  The cause:
`calculateChecksum` XORs the bytes at offsets 0-231 from the struct
start, which includes the checksum field (offset 8) and excludes the
last four `reserved` bytes (offsets 232-235). -/
theorem C1_corruption_detection_fails :
    validateData C1validRecord = true ∧
    (serialize C1validRecord).getD 235 0 ≠ C1corruptBytes.getD 235 0 ∧
    validateData (deserialize C1corruptBytes) = true ∧
    (StorageManager.begin (mkStorageManager C1corruptBytes)).1.data =
      deserialize C1corruptBytes ∧
    validateData ((StorageManager.begin (mkStorageManager (List.replicate 512 0))).1.data) = false := by
  refine ⟨by decide, by decide, by decide, by decide, by decide⟩

/-- The store right after `begin()` on blank flash: defaults were
initialized and persisted. -/
def bootedStore : StorageManager :=
  (StorageManager.begin (mkStorageManager (List.replicate 512 0))).1

/-- Claim C2 fails on the code: a record persisted through the write path
(`saveWiFiCredentials("MyWiFi", "pass")` right after `begin()`) reads
back with `validateData` false, although its ssid passes the
length/charset check; the checksum written by `saveToEEPROM` never
matches what `validateData` recomputes, because `calculateChecksum`
covers the checksum field itself. -/
theorem C2_write_readback_validate_fails :
    (StorageManager.saveWiFiCredentials bootedStore
      (some [77, 121, 87, 105, 70, 105]) (some [112, 97, 115, 115])).2 = true ∧
    validateData ((StorageManager.saveWiFiCredentials bootedStore
      (some [77, 121, 87, 105, 70, 105]) (some [112, 97, 115, 115])).1.data) = false ∧
    validateData (deserialize ((StorageManager.saveWiFiCredentials bootedStore
      (some [77, 121, 87, 105, 70, 105]) (some [112, 97, 115, 115])).1.eeprom)) = false ∧
    isValidSSID (fixBuf 32 [77, 121, 87, 105, 70, 105]) = true := by
  refine ⟨by decide, by decide, by decide, by decide⟩

/-- A store holding previously saved credentials for ssid `OldNet`. -/
def oldStore : StorageManager :=
  (StorageManager.saveWiFiCredentials bootedStore
    (some [79, 108, 100, 78, 101, 116]) (some [112, 119])).1

/-- Claim C3 fails on the code: `saveWiFiCredentials("", "x")` returns
true (the code only rejects a null ssid pointer), overwrites the
previously stored ssid in memory and on the medium with an empty one
while leaving `valid = true` - a record the store's own `validateData`
rejects - and an over-long 33-byte ssid is likewise accepted (silently
truncated to 31 bytes) rather than rejected. -/
theorem C3_empty_ssid_accepted :
    (StorageManager.saveWiFiCredentials oldStore (some []) (some [120])).2 = true ∧
    (StorageManager.saveWiFiCredentials oldStore (some []) (some [120])).1.data.wifi.ssid ≠
      oldStore.data.wifi.ssid ∧
    (StorageManager.saveWiFiCredentials oldStore (some []) (some [120])).1.eeprom ≠
      oldStore.eeprom ∧
    (StorageManager.saveWiFiCredentials oldStore (some []) (some [120])).1.data.wifi.valid = true ∧
    isValidSSID ((StorageManager.saveWiFiCredentials oldStore
      (some []) (some [120])).1.data.wifi.ssid) = false ∧
    (StorageManager.saveWiFiCredentials oldStore
      (some (List.replicate 33 65)) (some [120])).2 = true ∧
    cstr ((StorageManager.saveWiFiCredentials oldStore
      (some (List.replicate 33 65)) (some [120])).1.data.wifi.ssid) = List.replicate 31 65 := by
  refine ⟨by decide, by decide, by decide, by decide, by decide, by decide, by decide⟩

/-- Claim C4 as stated is false: `clearWiFiCredentials` on a store whose
`begin()` never ran still writes the record out to the backing medium
(and updates the in-memory checksum). -/
theorem C4_clear_writes_when_uninitialized :
    (mkStorageManager (List.replicate 512 0)).initialized = false ∧
    (StorageManager.clearWiFiCredentials (mkStorageManager (List.replicate 512 0))).eeprom ≠
      (mkStorageManager (List.replicate 512 0)).eeprom ∧
    (StorageManager.clearAll (mkStorageManager (List.replicate 512 0))).eeprom ≠
      (mkStorageManager (List.replicate 512 0)).eeprom ∧
    (StorageManager.format (mkStorageManager (List.replicate 512 0))).eeprom ≠
      (mkStorageManager (List.replicate 512 0)).eeprom := by
  refine ⟨by decide, by decide, by decide, by decide⟩

/-- Claim C4 amended: only the four save operations are guarded by
`_initialized` and fail as no-ops on a never-opened store; the clear
operations and `format` mutate the in-memory record and write it to the
backing medium regardless of initialization. -/
theorem C4_save_ops_noop_uninitialized (st : StorageManager)
    (h : st.initialized = false) (ssid password : Option (List Nat))
    (w : WiFiCredentials) (nc : NetworkConfig) (dc : DeviceConfig) :
    StorageManager.saveWiFiCredentials st ssid password = (st, false) ∧
    StorageManager.saveNetworkConfig st nc = (st, false) ∧
    StorageManager.saveDeviceConfig st dc = (st, false) ∧
    StorageManager.saveAll st w nc dc = (st, false) ∧
    (StorageManager.clearWiFiCredentials st).data.wifi = defaultWiFiCredentials ∧
    (StorageManager.clearWiFiCredentials st).eeprom =
      eepromPut st.eeprom (serialize (StorageManager.clearWiFiCredentials st).data) ∧
    (StorageManager.clearAll st).data.wifi = defaultWiFiCredentials ∧
    (StorageManager.clearAll st).eeprom =
      eepromPut st.eeprom (serialize (StorageManager.clearAll st).data) ∧
    (StorageManager.format st).data = { defaultStorageData with
      checksum := calculateChecksum defaultStorageData } ∧
    (StorageManager.format st).eeprom =
      eepromPut st.eeprom (serialize (StorageManager.format st).data) := by
  refine ⟨?_, ?_, ?_, ?_, ?_, ?_, ?_, ?_, ?_, ?_⟩
  · cases ssid <;> simp [StorageManager.saveWiFiCredentials, h]
  · simp [StorageManager.saveNetworkConfig, h]
  · simp [StorageManager.saveDeviceConfig, h]
  · simp [StorageManager.saveAll, h]
  · simp [StorageManager.clearWiFiCredentials, StorageManager.saveToEEPROM]
  · simp [StorageManager.clearWiFiCredentials, StorageManager.saveToEEPROM]
  · simp [StorageManager.clearAll, StorageManager.saveToEEPROM]
  · simp [StorageManager.clearAll, StorageManager.saveToEEPROM]
  · simp [StorageManager.format, StorageManager.initializeDefaults, StorageManager.saveToEEPROM]
  · simp [StorageManager.format, StorageManager.initializeDefaults, StorageManager.saveToEEPROM]

/-- Witness for `C4_save_ops_noop_uninitialized` at a concrete
never-opened store. -/
theorem C4_save_ops_noop_uninitialized_witness :
    StorageManager.saveWiFiCredentials (mkStorageManager (List.replicate 512 0))
      (some [65]) none = (mkStorageManager (List.replicate 512 0), false) :=
  (C4_save_ops_noop_uninitialized (mkStorageManager (List.replicate 512 0))
    (by decide) (some [65]) none defaultWiFiCredentials defaultNetworkConfig
    defaultDeviceConfig).1

/-- Claim C9 as stated is false: a 64-byte password (64 ≤ 64, so the
claim promises it is stored unmodified) is stored as its first 63 bytes
only - `strncpy(dst, src, sizeof-1)` keeps 63 data bytes, not 64. -/
theorem C9_password64_loses_last_byte :
    cstr ((StorageManager.saveWiFiCredentials oldStore (some [78, 101, 116])
      (some (List.replicate 64 97))).1.data.wifi.password) ≠ List.replicate 64 97 ∧
    cstr ((StorageManager.saveWiFiCredentials oldStore (some [78, 101, 116])
      (some (List.replicate 64 97))).1.data.wifi.password) = List.replicate 63 97 := by
  refine ⟨by decide, by decide⟩

/-- Claim C9 amended: the stored password equals the first 63 bytes of
the supplied password, and any password of 63 bytes or fewer is stored
unmodified. -/
theorem C9_password_truncated_at_63 (st : StorageManager) (s p : List Nat)
    (hinit : st.initialized = true) (hp : ∀ b ∈ p, b ≠ 0) :
    (StorageManager.saveWiFiCredentials st (some s) (some p)).2 = true ∧
    cstr ((StorageManager.saveWiFiCredentials st (some s) (some p)).1.data.wifi.password) =
      p.take 63 ∧
    (p.length ≤ 63 →
      cstr ((StorageManager.saveWiFiCredentials st (some s) (some p)).1.data.wifi.password) = p) := by
  have hbuf : (StorageManager.saveWiFiCredentials st (some s) (some p)).1.data.wifi.password =
      fixBuf 64 p := by
    simp [StorageManager.saveWiFiCredentials, hinit, StorageManager.saveToEEPROM]
  have hcstr : cstr (fixBuf 64 p) = p.take 63 := cstr_fixBuf 64 p hp
  refine ⟨?_, ?_, ?_⟩
  · simp [StorageManager.saveWiFiCredentials, hinit, StorageManager.saveToEEPROM]
  · rw [hbuf]; exact hcstr
  · intro hle
    rw [hbuf, hcstr]
    exact List.take_of_length_le hle

/-- Witness for `C9_password_truncated_at_63` at a concrete store and
password. -/
theorem C9_password_truncated_at_63_witness :
    cstr ((StorageManager.saveWiFiCredentials oldStore (some [78, 101, 116])
      (some [113, 119, 101])).1.data.wifi.password) = [113, 119, 101] :=
  (C9_password_truncated_at_63 oldStore [78, 101, 116] [113, 119, 101]
    (by decide) (by decide)).2.2 (by decide)

/-- Claim C10 confirmed: with an initialized store and non-null ssid, a
null password pointer succeeds, stores an all-zero password, marks the
credentials valid, and persists the record. -/
theorem C10_null_password_open_network (st : StorageManager) (s : List Nat)
    (hinit : st.initialized = true) :
    (StorageManager.saveWiFiCredentials st (some s) none).2 = true ∧
    (StorageManager.saveWiFiCredentials st (some s) none).1.data.wifi.password =
      List.replicate 64 0 ∧
    (StorageManager.saveWiFiCredentials st (some s) none).1.data.wifi.valid = true ∧
    (StorageManager.saveWiFiCredentials st (some s) none).1.eeprom =
      eepromPut st.eeprom
        (serialize (StorageManager.saveWiFiCredentials st (some s) none).1.data) := by
  refine ⟨?_, ?_, ?_, ?_⟩ <;>
    simp [StorageManager.saveWiFiCredentials, hinit, StorageManager.saveToEEPROM]

/-- Witness for `C10_null_password_open_network` at a concrete store. -/
theorem C10_null_password_open_network_witness :
    (StorageManager.saveWiFiCredentials oldStore (some [78, 101, 116]) none).2 = true :=
  (C10_null_password_open_network oldStore [78, 101, 116] (by decide)).1

/-! ### The connection orchestrator (src/PicoWiFiManager.cpp)

The orchestrator is driven by repeated `loop()` calls.  Each call reads
the environment - the wall clock (`millis()`), the radio link state
(`WiFi.status()`), the outcome a join attempt would have, whether the
portal AP can start, and the reset-button pin level - which we bundle as
a `TickInput`.  The join wait loop inside `connectWiFi` is collapsed to
its outcome (`joinResult`).  `rp2040.restart()` is modelled as setting a
`restarted` flag. -/

/-- `enum class ConnectionStatus` (PicoWiFiManager.h). -/
inductive ConnectionStatus where
  | DISCONNECTED
  | CONNECTING
  | CONNECTED
  | CONFIG_MODE
  | ERROR
deriving DecidableEq, Repr

/-- The fields of `PicoWiFiConfig` the orchestrator logic reads:
auto-reconnect flag, `uint8_t` attempt bound, and whether the reset pin
is disabled (`resetPin == 255`). -/
structure PicoWiFiConfig where
  autoReconnect : Bool
  maxReconnectAttempts : Nat
  resetPinDisabled : Bool
deriving DecidableEq, Repr

/-- The `PicoWiFiManager` object state: configuration, status, config
mode, `_isInitialized`, reconnection counters, the `static` locals of
`checkResetButton` (`pressed`, `pressStart`), the restart flag, and the
owned storage manager. -/
structure Manager where
  config : PicoWiFiConfig
  status : ConnectionStatus
  configMode : Bool
  isInitialized : Bool
  reconnectAttempts : Nat
  lastReconnectAttempt : Nat
  pressed : Bool
  pressStart : Nat
  restarted : Bool
  storage : StorageManager
deriving DecidableEq, Repr

/-- The environment one `loop()` call observes. -/
structure TickInput where
  now : Nat
  wifiConnected : Bool
  joinResult : Bool
  portalStartOk : Bool
  buttonDown : Bool
deriving DecidableEq, Repr

/-- Observable side effects of one `loop()` call: whether the
reconnection path initiated a join attempt, whether the status observer
was notified of a transition into `CONFIG_MODE`, and whether a factory
reset ran. -/
structure TickEvents where
  attempted : Bool
  entered : Bool
  factoryReset : Bool
deriving DecidableEq, Repr

/-- No observable side effect. -/
def noEvents : TickEvents :=
  { attempted := false, entered := false, factoryReset := false }

/-- Union of the events of two successive phases of a tick. -/
def mergeEvents (a b : TickEvents) : TickEvents :=
  { attempted := a.attempted || b.attempted
    entered := a.entered || b.entered
    factoryReset := a.factoryReset || b.factoryReset }

/-- `uint32_t` subtraction `a - b` on `Nat` models of the operands. -/
def u32sub (a b : Nat) : Nat := (a + U32 - b % U32) % U32

/-- `PicoWiFiManager::setStatus`: update `_status` and fire the observer
exactly when the new status differs; the returned flag records whether
the observer fired. -/
def setStatus (m : Manager) (s : ConnectionStatus) : Manager × Bool :=
  if m.status != s then ({ m with status := s }, true) else (m, false)

/-- `PicoWiFiManager::startConfigPortal`: raise `_configMode`, move to
`CONFIG_MODE`; when the portal fails to start, drop `_configMode` and
move to `ERROR`.  The `entered` event records a status transition into
`CONFIG_MODE`. -/
def startConfigPortal (m : Manager) (portalOk : Bool) : Manager × TickEvents :=
  let m1 := { m with configMode := true }
  let r := setStatus m1 ConnectionStatus.CONFIG_MODE
  if portalOk then
    (r.1, { attempted := false, entered := r.2, factoryReset := false })
  else
    let m3 := { r.1 with configMode := false }
    ((setStatus m3 ConnectionStatus.ERROR).1,
      { attempted := false, entered := r.2, factoryReset := false })

/-- `PicoWiFiManager::stopConfigPortal`. -/
def stopConfigPortal (m : Manager) : Manager :=
  if !m.configMode then m else { m with configMode := false }

/-- `PicoWiFiManager::connectWiFi`, with the radio wait loop collapsed
to its outcome: empty ssid fails immediately; otherwise status goes to
`CONNECTING`, then on success to `CONNECTED` with the reconnect counter
reset, on failure to `DISCONNECTED`. -/
def connectWiFi (m : Manager) (ssid : List Nat) (joinOk : Bool) : Manager × Bool :=
  if ssid.length == 0 then (m, false)
  else
    let m1 := (setStatus m ConnectionStatus.CONNECTING).1
    if joinOk then
      ({ (setStatus m1 ConnectionStatus.CONNECTED).1 with reconnectAttempts := 0 }, true)
    else
      ((setStatus m1 ConnectionStatus.DISCONNECTED).1, false)

/-- `PicoWiFiManager::handleReconnection`: skip when the link is up or in
config mode; enforce the 10-second spacing; once the counter reaches the
bound, start the config portal; otherwise record the attempt time,
increment the `uint8_t` counter, and retry the stored credentials. -/
def handleReconnection (m : Manager) (inp : TickInput) : Manager × TickEvents :=
  if inp.wifiConnected || m.configMode then (m, noEvents)
  else if u32sub inp.now m.lastReconnectAttempt < 10000 then (m, noEvents)
  else if m.config.maxReconnectAttempts ≤ m.reconnectAttempts then
    startConfigPortal m inp.portalStartOk
  else
    let m1 := { m with lastReconnectAttempt := inp.now % U32
                       reconnectAttempts := (m.reconnectAttempts + 1) % 256 }
    if m1.storage.initialized && m1.storage.data.wifi.valid then
      ((connectWiFi m1 (cstr m1.storage.data.wifi.ssid) inp.joinResult).1,
        { attempted := true, entered := false, factoryReset := false })
    else
      (m1, { attempted := true, entered := false, factoryReset := false })

/-- `PicoWiFiManager::reset`: stop the portal, clear all persisted
storage, restart the device. -/
def reset (m : Manager) : Manager × TickEvents :=
  let m1 := stopConfigPortal m
  let m2 := { m1 with storage := StorageManager.clearAll m1.storage }
  ({ m2 with restarted := true },
    { attempted := false, entered := false, factoryReset := true })

/-- `PicoWiFiManager::checkResetButton`: edge-detect the pin; on press
record the start time; on release dispatch on the held duration - over
3000ms a factory reset, over 100ms a config-portal start when no portal
is active, otherwise nothing. -/
def checkResetButton (m : Manager) (inp : TickInput) : Manager × TickEvents :=
  if m.config.resetPinDisabled then (m, noEvents)
  else if inp.buttonDown && !m.pressed then
    ({ m with pressed := true, pressStart := inp.now % U32 }, noEvents)
  else if !inp.buttonDown && m.pressed then
    let m1 := { m with pressed := false }
    let dur := u32sub inp.now m1.pressStart
    if 3000 < dur then reset m1
    else if 100 < dur then
      if !m1.configMode then startConfigPortal m1 inp.portalStartOk
      else (m1, noEvents)
    else (m1, noEvents)
  else (m, noEvents)

/-- `PicoWiFiManager::loop`: bail out when uninitialized, poll the reset
button, then - outside config mode with auto-reconnect on - run the
reconnection logic.  (Web-server/portal request handling and the LED
update have no effect on the modelled state.) -/
def loopTick (m : Manager) (inp : TickInput) : Manager × TickEvents :=
  if !m.isInitialized then (m, noEvents)
  else
    let r1 := checkResetButton m inp
    let r2 :=
      if !r1.1.configMode && r1.1.config.autoReconnect then
        handleReconnection r1.1 inp
      else (r1.1, noEvents)
    (r2.1, mergeEvents r1.2 r2.2)

/-- Iterate `loop()` over a list of tick inputs, collecting per-tick
events. -/
def run (m : Manager) : List TickInput → Manager × List TickEvents
  | [] => (m, [])
  | inp :: rest =>
    let r1 := loopTick m inp
    let r2 := run r1.1 rest
    (r2.1, r1.2 :: r2.2)

/-! ### Helper lemmas about the orchestrator primitives -/

/-- `setStatus` always leaves the requested status in place and fires
exactly when the status changed. -/
theorem setStatus_eq (m : Manager) (s : ConnectionStatus) :
    setStatus m s = ({ m with status := s }, m.status != s) := by
  unfold setStatus
  split
  · rename_i h
    rw [h]
  · rename_i h
    have hs : m.status = s := by simpa using h
    subst hs
    simp

/-- `stopConfigPortal` always leaves `_configMode` false. -/
theorem stopConfigPortal_eq (m : Manager) :
    stopConfigPortal m = { m with configMode := false } := by
  unfold stopConfigPortal
  split
  · rename_i h
    have hc : m.configMode = false := by simpa using h
    rw [← hc]
  · rfl

/-- `reset` in closed form: portal stopped, storage cleared, restart. -/
theorem reset_eq (m : Manager) :
    reset m =
      ({ m with configMode := false
                storage := StorageManager.clearAll m.storage, restarted := true },
       { attempted := false, entered := false, factoryReset := true }) := by
  unfold reset
  rw [stopConfigPortal_eq]

/-- `clearAll` always drops the wifi-valid flag, so
`hasWiFiCredentials` is false afterwards. -/
theorem hasWiFiCredentials_clearAll (st : StorageManager) :
    StorageManager.hasWiFiCredentials (StorageManager.clearAll st) = false := by
  simp [StorageManager.clearAll, StorageManager.saveToEEPROM,
    StorageManager.hasWiFiCredentials, defaultWiFiCredentials]

/-- `uint32_t` subtraction only depends on the subtrahend modulo 2^32. -/
theorem u32sub_mod_right (a b : Nat) : u32sub a (b % U32) = u32sub a b := by
  unfold u32sub U32
  omega

/-- `uint32_t` subtraction recovers an elapsed delta: `(b + d) - b`
reduces to `d` modulo 2^32. -/
theorem u32sub_add_self (b d : Nat) : u32sub (b + d) b = d % U32 := by
  unfold u32sub U32
  omega

/-! ### Claim C8: status-change notifications -/

/-- A sequence of `setStatus` calls, collecting for each call whether the
observer fired. -/
def setStatusRun (m : Manager) : List ConnectionStatus → Manager × List Bool
  | [] => (m, [])
  | s :: rest =>
    let r1 := setStatus m s
    let r2 := setStatusRun r1.1 rest
    (r2.1, r1.2 :: r2.2)

/-- Modelled from the spec sentence for comparison: starting from the
current status, a call fires exactly when its new status differs from
the status left by the previous call. -/
def specNotifications (cur : ConnectionStatus) : List ConnectionStatus → List Bool
  | [] => []
  | s :: rest => (cur != s) :: specNotifications s rest

/-- Claim C8 confirmed: over any sequence of `setStatus` calls the
observer fires exactly once per call whose new status differs from the
status current at that call, and never when they are equal - repeated
calls with an unchanged status produce no notification. -/
theorem C8_notifications_iff_status_change (m : Manager) (l : List ConnectionStatus) :
    (setStatusRun m l).2 = specNotifications m.status l := by
  induction l generalizing m with
  | nil => rfl
  | cons s rest ih =>
    simp only [setStatusRun, specNotifications, setStatus_eq]
    exact congrArg (_ :: ·) (ih { m with status := s })

/-- Unfolding one tick of a run. -/
theorem run_cons (m : Manager) (inp : TickInput) (l : List TickInput) :
    run m (inp :: l) =
      ((run (loopTick m inp).1 l).1,
       (loopTick m inp).2 :: (run (loopTick m inp).1 l).2) := rfl

/-- Splitting a run of ticks at a list append. -/
theorem run_append (m : Manager) (l1 l2 : List TickInput) :
    run m (l1 ++ l2) =
      ((run (run m l1).1 l2).1, (run m l1).2 ++ (run (run m l1).1 l2).2) := by
  induction l1 generalizing m with
  | nil => simp [run]
  | cons a l ih => simp [run, ih]

/-! ### Claim C7: reset-button press-and-release cycles -/

/-- A polling tick that sees the button held down (the link is up, so the
reconnection path is quiescent). -/
def pressTick (t : Nat) : TickInput :=
  { now := t, wifiConnected := true, joinResult := false, portalStartOk := true
    buttonDown := true }

/-- A polling tick that sees the button released. -/
def releaseTick (t : Nat) : TickInput :=
  { now := t, wifiConnected := true, joinResult := false, portalStartOk := true
    buttonDown := false }

/-- A tick seeing the pin low while not yet pressed records the press
edge and its start time. -/
theorem loopTick_press (m : Manager) (inp : TickInput)
    (hinit : m.isInitialized = true) (hpin : m.config.resetPinDisabled = false)
    (hpressed : m.pressed = false) (hb : inp.buttonDown = true)
    (hw : inp.wifiConnected = true) :
    loopTick m inp = ({ m with pressed := true, pressStart := inp.now % U32 }, noEvents) := by
  simp [loopTick, checkResetButton, handleReconnection, hinit, hpin, hpressed, hb, hw,
    mergeEvents, noEvents]

/-- A tick seeing the pin still low while already pressed changes
nothing. -/
theorem loopTick_held (m : Manager) (inp : TickInput)
    (hinit : m.isInitialized = true) (hpressed : m.pressed = true)
    (hb : inp.buttonDown = true) (hw : inp.wifiConnected = true) :
    loopTick m inp = (m, noEvents) := by
  simp [loopTick, checkResetButton, handleReconnection, hinit, hpressed, hb, hw,
    mergeEvents, noEvents]

/-- A run of held ticks changes nothing. -/
theorem run_held (m : Manager) (hs : List TickInput)
    (hinit : m.isInitialized = true) (hpressed : m.pressed = true)
    (hheld : ∀ inp ∈ hs, inp.buttonDown = true ∧ inp.wifiConnected = true) :
    run m hs = (m, List.replicate hs.length noEvents) := by
  induction hs with
  | nil => rfl
  | cons a l ih =>
    obtain ⟨hb, hw⟩ := hheld a (List.mem_cons_self a l)
    simp only [run, loopTick_held m a hinit hpressed hb hw,
      ih (fun inp h => hheld inp (List.mem_cons_of_mem a h)), List.length_cons,
      List.replicate_succ]

/-- Release after more than 3000ms held: factory reset - portal stopped,
storage cleared, device restarted. -/
theorem loopTick_release_factory (m : Manager) (inp : TickInput)
    (hinit : m.isInitialized = true) (hpin : m.config.resetPinDisabled = false)
    (hpressed : m.pressed = true) (hb : inp.buttonDown = false)
    (hw : inp.wifiConnected = true) (hdur : 3000 < u32sub inp.now m.pressStart) :
    loopTick m inp =
      ({ m with pressed := false, configMode := false
                storage := StorageManager.clearAll m.storage, restarted := true },
       { attempted := false, entered := false, factoryReset := true }) := by
  simp [loopTick, checkResetButton, handleReconnection, reset_eq, hinit, hpin, hpressed,
    hb, hw, hdur, mergeEvents, noEvents]

/-- Release after a hold in (100ms, 3000ms] with no active portal:
start the config portal, storage untouched. -/
theorem loopTick_release_portal (m : Manager) (inp : TickInput)
    (hinit : m.isInitialized = true) (hpin : m.config.resetPinDisabled = false)
    (hpressed : m.pressed = true) (hb : inp.buttonDown = false)
    (hw : inp.wifiConnected = true) (hcm : m.configMode = false)
    (hpo : inp.portalStartOk = true)
    (hd2 : ¬ 3000 < u32sub inp.now m.pressStart)
    (hd1 : 100 < u32sub inp.now m.pressStart) :
    loopTick m inp =
      ({ m with pressed := false, configMode := true
                status := ConnectionStatus.CONFIG_MODE },
       { attempted := false, entered := (m.status != ConnectionStatus.CONFIG_MODE)
         factoryReset := false }) := by
  simp [loopTick, checkResetButton, startConfigPortal, setStatus_eq, hinit, hpin, hpressed,
    hb, hw, hcm, hpo, hd1, hd2, mergeEvents, noEvents]

/-- Release after a hold in (100ms, 3000ms] with the portal already
active: ignored. -/
theorem loopTick_release_portal_active (m : Manager) (inp : TickInput)
    (hinit : m.isInitialized = true) (hpin : m.config.resetPinDisabled = false)
    (hpressed : m.pressed = true) (hb : inp.buttonDown = false)
    (hw : inp.wifiConnected = true) (hcm : m.configMode = true)
    (hd2 : ¬ 3000 < u32sub inp.now m.pressStart)
    (hd1 : 100 < u32sub inp.now m.pressStart) :
    loopTick m inp = ({ m with pressed := false }, noEvents) := by
  simp [loopTick, checkResetButton, handleReconnection, hinit, hpin, hpressed,
    hb, hw, hcm, hd1, hd2, mergeEvents, noEvents]

/-- Release after a hold of at most 100ms: nothing happens. -/
theorem loopTick_release_short (m : Manager) (inp : TickInput)
    (hinit : m.isInitialized = true) (hpin : m.config.resetPinDisabled = false)
    (hpressed : m.pressed = true) (hb : inp.buttonDown = false)
    (hw : inp.wifiConnected = true)
    (hd1 : ¬ 100 < u32sub inp.now m.pressStart)
    (hd2 : ¬ 3000 < u32sub inp.now m.pressStart) :
    loopTick m inp = ({ m with pressed := false }, noEvents) := by
  simp [loopTick, checkResetButton, handleReconnection, hinit, hpin, hpressed,
    hb, hw, hd1, hd2, mergeEvents, noEvents]

/-- Claim C7 confirmed: across one press-and-release cycle of polling
ticks (press at `t0`, any number of held ticks, release at `t0 + d`), a
release after more than 3000ms triggers a factory reset - storage
cleared (`hasWiFiCredentials` becomes false) and a restart; a release
after a hold in (100ms, 3000ms] starts the setup portal if inactive,
leaving storage untouched, and is ignored if the portal is active; a
release after at most 100ms does nothing. -/
theorem C7_reset_button_cycle (m : Manager) (t0 d : Nat) (held : List TickInput)
    (hinit : m.isInitialized = true) (hpin : m.config.resetPinDisabled = false)
    (hpressed : m.pressed = false) (hd : d < U32)
    (hheld : ∀ inp ∈ held, inp.buttonDown = true ∧ inp.wifiConnected = true) :
    (3000 < d →
      run m (pressTick t0 :: (held ++ [releaseTick (t0 + d)])) =
        ({ m with pressed := false, pressStart := t0 % U32, configMode := false
                  storage := StorageManager.clearAll m.storage, restarted := true },
         noEvents :: List.replicate held.length noEvents ++
           [{ attempted := false, entered := false, factoryReset := true }]) ∧
      StorageManager.hasWiFiCredentials
        (run m (pressTick t0 :: (held ++ [releaseTick (t0 + d)]))).1.storage = false) ∧
    (100 < d → d ≤ 3000 → m.configMode = false →
      run m (pressTick t0 :: (held ++ [releaseTick (t0 + d)])) =
        ({ m with pressed := false, pressStart := t0 % U32, configMode := true
                  status := ConnectionStatus.CONFIG_MODE },
         noEvents :: List.replicate held.length noEvents ++
           [{ attempted := false, entered := (m.status != ConnectionStatus.CONFIG_MODE)
              factoryReset := false }]) ∧
      (run m (pressTick t0 :: (held ++ [releaseTick (t0 + d)]))).1.storage = m.storage) ∧
    (100 < d → d ≤ 3000 → m.configMode = true →
      run m (pressTick t0 :: (held ++ [releaseTick (t0 + d)])) =
        ({ m with pressed := false, pressStart := t0 % U32 },
         noEvents :: List.replicate held.length noEvents ++ [noEvents])) ∧
    (d ≤ 100 →
      run m (pressTick t0 :: (held ++ [releaseTick (t0 + d)])) =
        ({ m with pressed := false, pressStart := t0 % U32 },
         noEvents :: List.replicate held.length noEvents ++ [noEvents])) := by
  have hdmod : d % U32 = d := Nat.mod_eq_of_lt hd
  have hdur : u32sub (t0 + d) (t0 % U32) = d := by
    rw [u32sub_mod_right, u32sub_add_self, hdmod]
  have hp : loopTick m (pressTick t0) =
      ({ m with pressed := true, pressStart := t0 % U32 }, noEvents) :=
    loopTick_press m (pressTick t0) hinit hpin hpressed rfl rfl
  have hh := run_held { m with pressed := true, pressStart := t0 % U32 }
    held hinit rfl hheld
  have key : run m (pressTick t0 :: (held ++ [releaseTick (t0 + d)])) =
      ((loopTick { m with pressed := true, pressStart := t0 % U32 }
          (releaseTick (t0 + d))).1,
       noEvents :: (List.replicate held.length noEvents ++
         [(loopTick { m with pressed := true, pressStart := t0 % U32 }
            (releaseTick (t0 + d))).2])) := by
    rw [run_cons, hp, run_append, hh]
    simp [run]
  refine ⟨fun h3 => ?_, fun h1 h2 hcm => ?_, fun h1 h2 hcm => ?_, fun h1 => ?_⟩
  · have hgt : 3000 < u32sub (releaseTick (t0 + d)).now
        ({ m with pressed := true, pressStart := t0 % U32 } : Manager).pressStart := by
      show 3000 < u32sub (t0 + d) (t0 % U32)
      rw [hdur]; exact h3
    have hstep := loopTick_release_factory
      { m with pressed := true, pressStart := t0 % U32 } (releaseTick (t0 + d))
      hinit hpin rfl rfl rfl hgt
    refine ⟨?_, ?_⟩
    · rw [key, hstep]
      rfl
    · rw [key, hstep]
      exact hasWiFiCredentials_clearAll m.storage
  · have hle : ¬ 3000 < u32sub (releaseTick (t0 + d)).now
        ({ m with pressed := true, pressStart := t0 % U32 } : Manager).pressStart := by
      show ¬ 3000 < u32sub (t0 + d) (t0 % U32)
      rw [hdur]; omega
    have hgt : 100 < u32sub (releaseTick (t0 + d)).now
        ({ m with pressed := true, pressStart := t0 % U32 } : Manager).pressStart := by
      show 100 < u32sub (t0 + d) (t0 % U32)
      rw [hdur]; exact h1
    have hstep := loopTick_release_portal
      { m with pressed := true, pressStart := t0 % U32 } (releaseTick (t0 + d))
      hinit hpin rfl rfl rfl hcm rfl hle hgt
    refine ⟨?_, ?_⟩
    · rw [key, hstep]
      rfl
    · rw [key, hstep]
  · have hle : ¬ 3000 < u32sub (releaseTick (t0 + d)).now
        ({ m with pressed := true, pressStart := t0 % U32 } : Manager).pressStart := by
      show ¬ 3000 < u32sub (t0 + d) (t0 % U32)
      rw [hdur]; omega
    have hgt : 100 < u32sub (releaseTick (t0 + d)).now
        ({ m with pressed := true, pressStart := t0 % U32 } : Manager).pressStart := by
      show 100 < u32sub (t0 + d) (t0 % U32)
      rw [hdur]; exact h1
    have hstep := loopTick_release_portal_active
      { m with pressed := true, pressStart := t0 % U32 } (releaseTick (t0 + d))
      hinit hpin rfl rfl rfl hcm hle hgt
    rw [key, hstep]
    rfl
  · have hle1 : ¬ 100 < u32sub (releaseTick (t0 + d)).now
        ({ m with pressed := true, pressStart := t0 % U32 } : Manager).pressStart := by
      show ¬ 100 < u32sub (t0 + d) (t0 % U32)
      rw [hdur]; omega
    have hle2 : ¬ 3000 < u32sub (releaseTick (t0 + d)).now
        ({ m with pressed := true, pressStart := t0 % U32 } : Manager).pressStart := by
      show ¬ 3000 < u32sub (t0 + d) (t0 % U32)
      rw [hdur]; omega
    have hstep := loopTick_release_short
      { m with pressed := true, pressStart := t0 % U32 } (releaseTick (t0 + d))
      hinit hpin rfl rfl rfl hle1 hle2
    rw [key, hstep]
    rfl

/-- Witness for `C7_reset_button_cycle` at a concrete manager: a 3500ms
hold factory-resets, a 500ms hold toggles the portal, a 50ms hold does
nothing. -/
theorem C7_reset_button_cycle_witness :
    (StorageManager.hasWiFiCredentials
      (run { config := { autoReconnect := true, maxReconnectAttempts := 3
                         resetPinDisabled := false }
             status := ConnectionStatus.CONNECTED, configMode := false
             isInitialized := true, reconnectAttempts := 0
             lastReconnectAttempt := 0, pressed := false, pressStart := 0
             restarted := false, storage := oldStore }
        (pressTick 1000 :: ([] ++ [releaseTick (1000 + 3500)]))).1.storage = false) ∧
    ((run { config := { autoReconnect := true, maxReconnectAttempts := 3
                        resetPinDisabled := false }
            status := ConnectionStatus.CONNECTED, configMode := false
            isInitialized := true, reconnectAttempts := 0
            lastReconnectAttempt := 0, pressed := false, pressStart := 0
            restarted := false, storage := oldStore }
        (pressTick 1000 :: ([] ++ [releaseTick (1000 + 500)]))).1.storage = oldStore) := by
  constructor
  · exact ((C7_reset_button_cycle _ 1000 3500 [] rfl rfl rfl (by decide)
      (by intro inp h; cases h)).1 (by decide)).2
  · exact ((C7_reset_button_cycle _ 1000 500 [] rfl rfl rfl (by decide)
      (by intro inp h; cases h)).2.1 (by decide) (by decide) rfl).2

/-! ### Claims C5 and C6: reconnection policy -/

/-- A polling tick with the link down, a join attempt failing, the
portal able to start, and the button up. -/
def failTick (t : Nat) : TickInput :=
  { now := t, wifiConnected := false, joinResult := false, portalStartOk := true
    buttonDown := false }

/-- A polling tick with the link down and a join attempt succeeding. -/
def succTick (t : Nat) : TickInput :=
  { now := t, wifiConnected := false, joinResult := true, portalStartOk := true
    buttonDown := false }

/-- `count` failing ticks spaced exactly 10 seconds apart starting at
time `t`. -/
def failSeq : Nat → Nat → List TickInput
  | _, 0 => []
  | t, j + 1 => failTick t :: failSeq (t + 10000) j

/-- Events of a tick that initiated a join attempt. -/
def attemptEv : TickEvents :=
  { attempted := true, entered := false, factoryReset := false }

/-- Events of a tick that entered config mode. -/
def enterEv : TickEvents :=
  { attempted := false, entered := true, factoryReset := false }

/-- An orchestrator state parameterized by the reconnection counter, the
last-attempt time, the status and the config-mode flag; initialized,
button untouched, not restarted. -/
def reconMgr (cfg : PicoWiFiConfig) (st : StorageManager) (a t : Nat)
    (s : ConnectionStatus) (cm : Bool) : Manager :=
  { config := cfg, status := s, configMode := cm, isInitialized := true
    reconnectAttempts := a, lastReconnectAttempt := t, pressed := false
    pressStart := 0, restarted := false, storage := st }

/-- Below the attempt bound, a failing tick 10 seconds after the last
attempt increments the counter, records the time, and leaves the
orchestrator disconnected. -/
theorem loopTick_fail_attempt (cfg : PicoWiFiConfig) (st : StorageManager)
    (a t : Nat) (s : ConnectionStatus)
    (hauto : cfg.autoReconnect = true)
    (hsi : st.initialized = true) (hsv : st.data.wifi.valid = true)
    (hss : ¬ (cstr st.data.wifi.ssid).length = 0)
    (ha : a < cfg.maxReconnectAttempts) (ha255 : a < 255) :
    loopTick (reconMgr cfg st a (t % U32) s false) (failTick (t + 10000)) =
      (reconMgr cfg st (a + 1) ((t + 10000) % U32) ConnectionStatus.DISCONNECTED false,
       attemptEv) := by
  have hgap : ¬ u32sub (t + 10000) (t % U32) < 10000 := by
    rw [u32sub_mod_right, u32sub_add_self]
    decide
  have hmax : ¬ cfg.maxReconnectAttempts ≤ a := by omega
  have hinc : (a + 1) % 256 = a + 1 := Nat.mod_eq_of_lt (by omega)
  simp [loopTick, checkResetButton, handleReconnection, connectWiFi, setStatus_eq,
    reconMgr, failTick, hauto, hsi, hsv, hss, hgap, hmax, hinc,
    mergeEvents, noEvents, attemptEv]

/-- Below the attempt bound, a succeeding tick 10 seconds after the last
attempt resets the counter to zero and connects. -/
theorem loopTick_succ_attempt (cfg : PicoWiFiConfig) (st : StorageManager)
    (a t : Nat) (s : ConnectionStatus)
    (hauto : cfg.autoReconnect = true)
    (hsi : st.initialized = true) (hsv : st.data.wifi.valid = true)
    (hss : ¬ (cstr st.data.wifi.ssid).length = 0)
    (ha : a < cfg.maxReconnectAttempts) :
    loopTick (reconMgr cfg st a (t % U32) s false) (succTick (t + 10000)) =
      (reconMgr cfg st 0 ((t + 10000) % U32) ConnectionStatus.CONNECTED false,
       attemptEv) := by
  have hgap : ¬ u32sub (t + 10000) (t % U32) < 10000 := by
    rw [u32sub_mod_right, u32sub_add_self]
    decide
  have hmax : ¬ cfg.maxReconnectAttempts ≤ a := by omega
  simp [loopTick, checkResetButton, handleReconnection, connectWiFi, setStatus_eq,
    reconMgr, succTick, hauto, hsi, hsv, hss, hgap, hmax,
    mergeEvents, noEvents, attemptEv]

/-- At the attempt bound, a failing tick 10 seconds after the last
attempt starts the config portal: config mode raised, status moves to
`CONFIG_MODE`, counter and attempt time untouched. -/
theorem loopTick_fail_giveup (cfg : PicoWiFiConfig) (st : StorageManager)
    (a t : Nat) (s : ConnectionStatus)
    (hauto : cfg.autoReconnect = true)
    (ha : cfg.maxReconnectAttempts ≤ a)
    (hs : (s != ConnectionStatus.CONFIG_MODE) = true) :
    loopTick (reconMgr cfg st a (t % U32) s false) (failTick (t + 10000)) =
      (reconMgr cfg st a (t % U32) ConnectionStatus.CONFIG_MODE true, enterEv) := by
  have hgap : ¬ u32sub (t + 10000) (t % U32) < 10000 := by
    rw [u32sub_mod_right, u32sub_add_self]
    decide
  simp [loopTick, checkResetButton, handleReconnection, startConfigPortal, setStatus_eq,
    reconMgr, failTick, hauto, ha, hgap, hs, mergeEvents, noEvents, enterEv]

/-- In config mode with the button up, a tick changes nothing: the
reconnection path is gated off. -/
theorem loopTick_config_idle (cfg : PicoWiFiConfig) (st : StorageManager)
    (a t : Nat) (inp : TickInput) (hb : inp.buttonDown = false) :
    loopTick (reconMgr cfg st a t ConnectionStatus.CONFIG_MODE true) inp =
      (reconMgr cfg st a t ConnectionStatus.CONFIG_MODE true, noEvents) := by
  simp [loopTick, checkResetButton, handleReconnection, reconMgr, hb,
    mergeEvents, noEvents]

/-- A run of button-up ticks in config mode changes nothing. -/
theorem run_config_idle (cfg : PicoWiFiConfig) (st : StorageManager)
    (a t : Nat) (l : List TickInput) (hb : ∀ inp ∈ l, inp.buttonDown = false) :
    run (reconMgr cfg st a t ConnectionStatus.CONFIG_MODE true) l =
      (reconMgr cfg st a t ConnectionStatus.CONFIG_MODE true,
       List.replicate l.length noEvents) := by
  induction l with
  | nil => rfl
  | cons x xs ih =>
    rw [run_cons, loopTick_config_idle cfg st a t x (hb x (List.mem_cons_self x xs)),
      ih (fun inp h => hb inp (List.mem_cons_of_mem x h))]
    simp [List.replicate_succ]

/-- Every tick of a failing sequence has the button up. -/
theorem failSeq_buttonDown (j : Nat) :
    ∀ (t : Nat), ∀ inp ∈ failSeq t j, inp.buttonDown = false := by
  induction j with
  | zero =>
    intro t inp h
    simp [failSeq] at h
  | succ j ih =>
    intro t inp h
    rw [show failSeq t (j + 1) = failTick t :: failSeq (t + 10000) j from rfl] at h
    rcases List.mem_cons.mp h with h1 | h2
    · rw [h1]; rfl
    · exact ih (t + 10000) inp h2

/-- Dropping one more element than a leading replicate block skips the
block and the following element. -/
theorem drop_replicate_append {α : Type} (n : Nat) (a x : α) (l : List α) :
    List.drop (n + 1) (List.replicate n a ++ x :: l) = l := by
  induction n with
  | zero => rfl
  | succ n ih =>
    rw [List.replicate_succ, List.cons_append, List.drop_succ_cons]
    exact ih

/-- A failing sequence has one tick per count. -/
theorem failSeq_length (j : Nat) : ∀ t, (failSeq t j).length = j := by
  induction j with
  | zero => intro t; rfl
  | succ j ih =>
    intro t
    rw [show failSeq t (j + 1) = failTick t :: failSeq (t + 10000) j from rfl]
    simp [ih]

/-- Splitting a failing sequence. -/
theorem failSeq_append (i j : Nat) :
    ∀ t, failSeq t (i + j) = failSeq t i ++ failSeq (t + 10000 * i) j := by
  induction i with
  | zero =>
    intro t
    simp [failSeq]
  | succ i ih =>
    intro t
    have e1 : i + 1 + j = (i + j) + 1 := by omega
    rw [e1,
      show failSeq t ((i + j) + 1) = failTick t :: failSeq (t + 10000) (i + j) from rfl,
      ih (t + 10000),
      show failSeq t (i + 1) = failTick t :: failSeq (t + 10000) i from rfl,
      List.cons_append,
      show t + 10000 + 10000 * i = t + 10000 * (i + 1) from by ring]

/-- A failing sequence below the attempt bound runs through attempt
events only, accumulating the counter and advancing the attempt time. -/
theorem run_fail_seq (cfg : PicoWiFiConfig) (st : StorageManager)
    (hauto : cfg.autoReconnect = true)
    (hsi : st.initialized = true) (hsv : st.data.wifi.valid = true)
    (hss : ¬ (cstr st.data.wifi.ssid).length = 0)
    (hmax : cfg.maxReconnectAttempts ≤ 255) :
    ∀ (j a t : Nat) (s : ConnectionStatus), a + j ≤ cfg.maxReconnectAttempts →
      run (reconMgr cfg st a (t % U32) s false) (failSeq (t + 10000) j) =
        (reconMgr cfg st (a + j) ((t + 10000 * j) % U32)
          (if j = 0 then s else ConnectionStatus.DISCONNECTED) false,
         List.replicate j attemptEv) := by
  intro j
  induction j with
  | zero =>
    intro a t s h
    simp [failSeq, run]
  | succ j ih =>
    intro a t s h
    have step := loopTick_fail_attempt cfg st a t s hauto hsi hsv hss
      (by omega) (by omega)
    rw [show failSeq (t + 10000) (j + 1) =
          failTick (t + 10000) :: failSeq (t + 10000 + 10000) j from rfl,
      run_cons, step, ih (a + 1) (t + 10000) ConnectionStatus.DISCONNECTED (by omega)]
    have e1 : a + 1 + j = a + (j + 1) := by omega
    have e2 : t + 10000 + 10000 * j = t + 10000 * (j + 1) := by ring
    simp [e1, e2, List.replicate_succ]

/-- Claim C5 confirmed: with auto-reconnect on and valid stored
credentials, a sequence of failing ticks spaced 10 seconds apart drives
exactly `maxReconnectAttempts` join attempts, then one further eligible
tick enters `CONFIG_MODE` exactly once, and every later tick - with the
orchestrator in config mode - initiates no further autonomous
reconnection attempt and no further config-mode entry. -/
theorem C5_gives_up_into_config_mode_once (cfg : PicoWiFiConfig)
    (st : StorageManager) (k : Nat)
    (hauto : cfg.autoReconnect = true)
    (hmax : cfg.maxReconnectAttempts ≤ 255)
    (hsi : st.initialized = true) (hsv : st.data.wifi.valid = true)
    (hss : ¬ (cstr st.data.wifi.ssid).length = 0) :
    run (reconMgr cfg st 0 0 ConnectionStatus.DISCONNECTED false)
        (failSeq 10000 (cfg.maxReconnectAttempts + (1 + k))) =
      (reconMgr cfg st cfg.maxReconnectAttempts
        ((10000 * cfg.maxReconnectAttempts) % U32)
        ConnectionStatus.CONFIG_MODE true,
       List.replicate cfg.maxReconnectAttempts attemptEv ++
         enterEv :: List.replicate k noEvents) ∧
    ((run (reconMgr cfg st 0 0 ConnectionStatus.DISCONNECTED false)
        (failSeq 10000 (cfg.maxReconnectAttempts + (1 + k)))).2.countP
      (fun e => e.entered)) = 1 ∧
    ∀ e ∈ ((run (reconMgr cfg st 0 0 ConnectionStatus.DISCONNECTED false)
        (failSeq 10000 (cfg.maxReconnectAttempts + (1 + k)))).2.drop
      (cfg.maxReconnectAttempts + 1)), e.attempted = false ∧ e.entered = false := by
  have hpre := run_fail_seq cfg st hauto hsi hsv hss hmax
    cfg.maxReconnectAttempts 0 0 ConnectionStatus.DISCONNECTED (by omega)
  simp only [Nat.zero_mod, Nat.zero_add, ite_self] at hpre
  have hpre1 : (run (reconMgr cfg st 0 0 ConnectionStatus.DISCONNECTED false)
      (failSeq 10000 cfg.maxReconnectAttempts)).1 =
      reconMgr cfg st cfg.maxReconnectAttempts
        ((10000 * cfg.maxReconnectAttempts) % U32)
        ConnectionStatus.DISCONNECTED false := by
    rw [hpre]
  have hpre2 : (run (reconMgr cfg st 0 0 ConnectionStatus.DISCONNECTED false)
      (failSeq 10000 cfg.maxReconnectAttempts)).2 =
      List.replicate cfg.maxReconnectAttempts attemptEv := by
    rw [hpre]
  have hgu := loopTick_fail_giveup cfg st cfg.maxReconnectAttempts
    (10000 * cfg.maxReconnectAttempts) ConnectionStatus.DISCONNECTED hauto
    (Nat.le_refl _) (by decide)
  rw [show 10000 * cfg.maxReconnectAttempts + 10000 =
      10000 + 10000 * cfg.maxReconnectAttempts from by ring] at hgu
  have hgu1 : (loopTick (reconMgr cfg st cfg.maxReconnectAttempts
      ((10000 * cfg.maxReconnectAttempts) % U32) ConnectionStatus.DISCONNECTED false)
      (failTick (10000 + 10000 * cfg.maxReconnectAttempts))).1 =
      reconMgr cfg st cfg.maxReconnectAttempts
        ((10000 * cfg.maxReconnectAttempts) % U32)
        ConnectionStatus.CONFIG_MODE true := by
    rw [hgu]
  have hgu2 : (loopTick (reconMgr cfg st cfg.maxReconnectAttempts
      ((10000 * cfg.maxReconnectAttempts) % U32) ConnectionStatus.DISCONNECTED false)
      (failTick (10000 + 10000 * cfg.maxReconnectAttempts))).2 = enterEv := by
    rw [hgu]
  have hidle := run_config_idle cfg st cfg.maxReconnectAttempts
    ((10000 * cfg.maxReconnectAttempts) % U32)
    (failSeq (10000 + 10000 * cfg.maxReconnectAttempts + 10000) k)
    (failSeq_buttonDown k (10000 + 10000 * cfg.maxReconnectAttempts + 10000))
  have hmain : run (reconMgr cfg st 0 0 ConnectionStatus.DISCONNECTED false)
      (failSeq 10000 (cfg.maxReconnectAttempts + (1 + k))) =
      (reconMgr cfg st cfg.maxReconnectAttempts
        ((10000 * cfg.maxReconnectAttempts) % U32)
        ConnectionStatus.CONFIG_MODE true,
       List.replicate cfg.maxReconnectAttempts attemptEv ++
         enterEv :: List.replicate k noEvents) := by
    rw [failSeq_append cfg.maxReconnectAttempts (1 + k) 10000,
      show failSeq (10000 + 10000 * cfg.maxReconnectAttempts) (1 + k) =
        failTick (10000 + 10000 * cfg.maxReconnectAttempts) ::
          failSeq (10000 + 10000 * cfg.maxReconnectAttempts + 10000) k from by
        rw [Nat.add_comm 1 k]
        rfl,
      run_append, hpre1, hpre2, run_cons, hgu1, hgu2, hidle]
    simp [failSeq_length]
  refine ⟨hmain, ?_, ?_⟩
  · rw [hmain]
    simp [List.countP_append, List.countP_cons, List.countP_replicate,
      attemptEv, enterEv, noEvents]
  · rw [hmain]
    intro e he
    replace he : e ∈ List.drop (cfg.maxReconnectAttempts + 1)
        (List.replicate cfg.maxReconnectAttempts attemptEv ++
          enterEv :: List.replicate k noEvents) := he
    rw [drop_replicate_append] at he
    rw [List.eq_of_mem_replicate he]
    exact ⟨rfl, rfl⟩

/-- Witness for `C5_gives_up_into_config_mode_once` at a concrete
configuration (bound 3) and the concrete credential store. -/
theorem C5_gives_up_into_config_mode_once_witness :
    ((run (reconMgr { autoReconnect := true, maxReconnectAttempts := 3
                      resetPinDisabled := false } oldStore 0 0
        ConnectionStatus.DISCONNECTED false)
      (failSeq 10000 (3 + (1 + 2)))).2.countP (fun e => e.entered)) = 1 :=
  (C5_gives_up_into_config_mode_once
    { autoReconnect := true, maxReconnectAttempts := 3, resetPinDisabled := false }
    oldStore 2 rfl (by decide) (by decide) (by decide) (by decide)).2.1

/-- Claim C6 confirmed: a successful join resets the reconnection
counter to 0, and a subsequent sequence of failing ticks again runs the
full `maxReconnectAttempts` attempts before the orchestrator gives up
and enters config mode. -/
theorem C6_success_resets_reconnect_counter (cfg : PicoWiFiConfig)
    (st : StorageManager) (a k : Nat)
    (hauto : cfg.autoReconnect = true)
    (hmax : cfg.maxReconnectAttempts ≤ 255)
    (hsi : st.initialized = true) (hsv : st.data.wifi.valid = true)
    (hss : ¬ (cstr st.data.wifi.ssid).length = 0)
    (ha : a < cfg.maxReconnectAttempts) :
    (loopTick (reconMgr cfg st a 0 ConnectionStatus.DISCONNECTED false)
      (succTick 10000)).1.reconnectAttempts = 0 ∧
    run (reconMgr cfg st a 0 ConnectionStatus.DISCONNECTED false)
        (succTick 10000 :: failSeq 20000 (cfg.maxReconnectAttempts + (1 + k))) =
      (reconMgr cfg st cfg.maxReconnectAttempts
        ((10000 + 10000 * cfg.maxReconnectAttempts) % U32)
        ConnectionStatus.CONFIG_MODE true,
       attemptEv :: (List.replicate cfg.maxReconnectAttempts attemptEv ++
         enterEv :: List.replicate k noEvents)) := by
  have hsucc := loopTick_succ_attempt cfg st a 0 ConnectionStatus.DISCONNECTED
    hauto hsi hsv hss ha
  simp only [Nat.zero_mod, Nat.zero_add] at hsucc
  have hsucc1 : (loopTick (reconMgr cfg st a 0 ConnectionStatus.DISCONNECTED false)
      (succTick 10000)).1 =
      reconMgr cfg st 0 (10000 % U32) ConnectionStatus.CONNECTED false := by
    rw [hsucc]
  have hsucc2 : (loopTick (reconMgr cfg st a 0 ConnectionStatus.DISCONNECTED false)
      (succTick 10000)).2 = attemptEv := by
    rw [hsucc]
  refine ⟨by rw [hsucc1]; rfl, ?_⟩
  have hpre := run_fail_seq cfg st hauto hsi hsv hss hmax
    cfg.maxReconnectAttempts 0 10000 ConnectionStatus.CONNECTED (by omega)
  simp only [Nat.zero_add] at hpre
  rw [show (10000 : Nat) + 10000 = 20000 from by norm_num] at hpre
  have hpre1 : (run (reconMgr cfg st 0 (10000 % U32) ConnectionStatus.CONNECTED false)
      (failSeq 20000 cfg.maxReconnectAttempts)).1 =
      reconMgr cfg st cfg.maxReconnectAttempts
        ((10000 + 10000 * cfg.maxReconnectAttempts) % U32)
        (if cfg.maxReconnectAttempts = 0 then ConnectionStatus.CONNECTED
         else ConnectionStatus.DISCONNECTED) false := by
    rw [hpre]
  have hpre2 : (run (reconMgr cfg st 0 (10000 % U32) ConnectionStatus.CONNECTED false)
      (failSeq 20000 cfg.maxReconnectAttempts)).2 =
      List.replicate cfg.maxReconnectAttempts attemptEv := by
    rw [hpre]
  have hgu := loopTick_fail_giveup cfg st cfg.maxReconnectAttempts
    (10000 + 10000 * cfg.maxReconnectAttempts)
    (if cfg.maxReconnectAttempts = 0 then ConnectionStatus.CONNECTED
     else ConnectionStatus.DISCONNECTED) hauto
    (Nat.le_refl _) (by split <;> decide)
  rw [show 10000 + 10000 * cfg.maxReconnectAttempts + 10000 =
      20000 + 10000 * cfg.maxReconnectAttempts from by ring] at hgu
  have hgu1 : (loopTick (reconMgr cfg st cfg.maxReconnectAttempts
      ((10000 + 10000 * cfg.maxReconnectAttempts) % U32)
      (if cfg.maxReconnectAttempts = 0 then ConnectionStatus.CONNECTED
       else ConnectionStatus.DISCONNECTED) false)
      (failTick (20000 + 10000 * cfg.maxReconnectAttempts))).1 =
      reconMgr cfg st cfg.maxReconnectAttempts
        ((10000 + 10000 * cfg.maxReconnectAttempts) % U32)
        ConnectionStatus.CONFIG_MODE true := by
    rw [hgu]
  have hgu2 : (loopTick (reconMgr cfg st cfg.maxReconnectAttempts
      ((10000 + 10000 * cfg.maxReconnectAttempts) % U32)
      (if cfg.maxReconnectAttempts = 0 then ConnectionStatus.CONNECTED
       else ConnectionStatus.DISCONNECTED) false)
      (failTick (20000 + 10000 * cfg.maxReconnectAttempts))).2 = enterEv := by
    rw [hgu]
  have hidle := run_config_idle cfg st cfg.maxReconnectAttempts
    ((10000 + 10000 * cfg.maxReconnectAttempts) % U32)
    (failSeq (20000 + 10000 * cfg.maxReconnectAttempts + 10000) k)
    (failSeq_buttonDown k (20000 + 10000 * cfg.maxReconnectAttempts + 10000))
  rw [run_cons, hsucc1, hsucc2,
    failSeq_append cfg.maxReconnectAttempts (1 + k) 20000,
    show failSeq (20000 + 10000 * cfg.maxReconnectAttempts) (1 + k) =
      failTick (20000 + 10000 * cfg.maxReconnectAttempts) ::
        failSeq (20000 + 10000 * cfg.maxReconnectAttempts + 10000) k from by
      rw [Nat.add_comm 1 k]
      rfl,
    run_append, hpre1, hpre2, run_cons, hgu1, hgu2, hidle]
  simp [failSeq_length]

/-- Witness for `C6_success_resets_reconnect_counter` at a concrete
configuration, with one failure already on the counter. -/
theorem C6_success_resets_reconnect_counter_witness :
    (loopTick (reconMgr { autoReconnect := true, maxReconnectAttempts := 3
                          resetPinDisabled := false } oldStore 1 0
        ConnectionStatus.DISCONNECTED false)
      (succTick 10000)).1.reconnectAttempts = 0 :=
  (C6_success_resets_reconnect_counter
    { autoReconnect := true, maxReconnectAttempts := 3, resetPinDisabled := false }
    oldStore 1 0 rfl (by decide) (by decide) (by decide) (by decide) (by decide)).1

end PicoWiFi
